import Mathlib

/-!
Shallow embedding of the containerd runtime driver of
cluster-api-provider-containerd (package `container`, plus the exec-engine
revision of the same package).  Go functions become Lean functions; the
containerd client, the name walker and the template library are modelled as
explicit inputs (oracles) so that every repository-side decision — parsing,
guards, branching, error selection — is translated literally from the source.
Machine integers are modelled as `Int` with an explicit wrap at 32 bits where
the code converts to `int32`.
-/

namespace Capcd

/-- Errors produced by the driver or surfaced from the engine.  Each
constructor corresponds to one `fmt.Errorf`/library error site of the source. -/
inductive GoError where
  | atoiError (s : String)
  | unexpectedPort (n : Int)
  | failedToParse (s : String)
  | ambiguousID (req : String)
  | noSuchContainer (name : String)
  | noSuchObject (name : String)
  | noHostPortFound (name : String)
  | labelsError
  | jsonUnmarshalError
  | parseRefError (s : String)
  | listImagesError
  | pullError (s : String)
  | invalidSignal (s : String)
  | loadContainerError (name : String)
  | taskError
  | cannotDeleteNonStopped (st : String)
  | inspectError
  | templateParseError
  | rawFormatError
  | capCurrentError
  | specError
  | marshalError
  | logFileError (id : String)
  deriving Repr, DecidableEq

/-- Value of one decimal digit character, `none` for a non-digit. -/
def digitVal (c : Char) : Option Nat :=
  if c.isDigit then some (c.toNat - 48) else none

/-- Decimal digits of a string, `none` if any character is not a digit or the
string is empty.  Helper for the `strconv.Atoi` model. -/
def digitsVal : List Char → Option Nat
  | [] => none
  | [c] => digitVal c
  | c :: rest =>
    match digitsVal rest, digitVal c with
    | some r, some d => some (d * 10 ^ rest.length + r)
    | _, _ => none

/-- Model of Go `strconv.Atoi`: an optional sign followed by one or more
decimal digits; anything else is a parse error (`none`). -/
def atoi (s : String) : Option Int :=
  match s.toList with
  | '+' :: rest => (digitsVal rest).map (fun n => (n : Int))
  | '-' :: rest => (digitsVal rest).map (fun n => -(n : Int))
  | cs => (digitsVal cs).map (fun n => (n : Int))

/-- Go conversion `int32(n)`: two's-complement truncation to 32 bits. -/
def toInt32 (n : Int) : Int := (n + 2 ^ 31) % 2 ^ 32 - 2 ^ 31

/-- Model of Go `strings.ToLower` (ASCII case folding, which is all the
port-protocol comparison needs). -/
def goToLower (s : String) : String := String.mk (s.toList.map Char.toLower)

/-- Splitting a character list on a separator, keeping empty fields: the
recursion behind the `strings.Split` model. -/
def splitChar (sep : Char) : List Char → List (List Char)
  | [] => [[]]
  | c :: rest =>
    let r := splitChar sep rest
    if c == sep then [] :: r
    else
      match r with
      | h :: t => (c :: h) :: t
      | [] => [[c]]

/-- Model of Go `strings.Split(s, "/")`: all fields between `/` separators,
empty fields kept, `[""]` for the empty string. -/
def goSplitSlash (s : String) : List String :=
  (splitChar '/' s.toList).map String.mk

/-- One entry of the JSON port-mapping label (`gocni.PortMapping`); the two
port fields are `int32` in Go. -/
structure PortMapping where
  containerPort : Int
  protocol : String
  hostPort : Int
  deriving Repr, DecidableEq

/-- Result of reading the container's labels and the `labels.Ports` entry:
the label fetch can fail, the entry can be absent/empty (Go map lookup on a
missing key yields `""`), the JSON can fail to unmarshal, or it decodes to a
list of port mappings.  The JSON codec itself is external library code; this
type records its outcome. -/
inductive PortsLabel where
  | labelsErr
  | absent
  | malformed
  | decoded (ps : List PortMapping)
  deriving Repr, DecidableEq

/-- A container as seen by the port-lookup path: its ID and the outcome of
reading its port-mapping label. -/
structure ContainerInfo where
  id : String
  portsLabel : PortsLabel
  deriving Repr, DecidableEq

/-- Embedding of `printPort` (part_000 lines 298-318): fetch labels, treat an
empty `labels.Ports` value as success with `""`, unmarshal, then linearly scan
for the first entry whose container port equals `int32(argPort)` and whose
lower-cased protocol equals `argProto`, returning its host port via
`strconv.Itoa`; otherwise the no-host-port-found error. -/
def printPort (containerName : String) (c : ContainerInfo) (argPort : Int)
    (argProto : String) : Except GoError String :=
  match c.portsLabel with
  | .labelsErr => .error .labelsError
  | .absent => .ok ""
  | .malformed => .error .jsonUnmarshalError
  | .decoded ps =>
    match ps.find? (fun p => p.containerPort == toInt32 argPort &&
        goToLower p.protocol == argProto) with
    | some p => .ok (toString p.hostPort)
    | none => .error (.noHostPortFound containerName)

/-- Embedding of the parsing block of `GetHostPort` (part_000 lines 96-113),
entered only for a non-empty `portAndProtocol`: split on `/`, `Atoi` the
first component, reject non-positive ports, default the protocol to `tcp`
when there is exactly one component, lower-case it when there are two, and
fail for more components. -/
def parsePortProto (portProto : String) : Except GoError (Int × String) :=
  let splitBySlash := goSplitSlash portProto
  match atoi (splitBySlash.headD "") with
  | none => .error (.atoiError (splitBySlash.headD ""))
  | some argPort =>
    if argPort ≤ 0 then .error (.unexpectedPort argPort)
    else
      match splitBySlash.length with
      | 1 => .ok (argPort, "tcp")
      | 2 => .ok (argPort, goToLower (splitBySlash.getD 1 ""))
      | _ => .error (.failedToParse portProto)

/-- The `containerwalker.ContainerWalker.Walk` loop specialised to
`GetHostPort`'s `OnFound` closure: `matchCount` is `found.MatchCount` (the
total number of matches), `port` is the captured variable the closure writes;
the walk aborts on the first error and otherwise counts the visited matches. -/
def walkPortGo (matchCount : Nat) (req : String) (argPort : Int)
    (argProto : String) : List ContainerInfo → String → Except GoError (Nat × String)
  | [], port => .ok (0, port)
  | c :: rest, _port =>
    if matchCount > 1 then .error (.ambiguousID req)
    else
      match printPort req c argPort argProto with
      | .error e => .error e
      | .ok p =>
        match walkPortGo matchCount req argPort argProto rest p with
        | .error e => .error e
        | .ok (n, port) => .ok (n + 1, port)

/-- Embedding of `GetHostPort` (part_000 lines 90-137).  The walker's
name-matching itself is external (nerdctl); `matches` is the list of
containers it finds for `containerName`.  For an empty `portAndProtocol` the
parse block is skipped and the defaults `argPort = -1`, `argProto = ""`
survive.  Zero matches yield the no-such-container error. -/
def GetHostPort (found : List ContainerInfo) (containerName portAndProtocol : String) :
    Except GoError String :=
  let parsed : Except GoError (Int × String) :=
    if portAndProtocol ≠ "" then parsePortProto portAndProtocol else .ok (-1, "")
  match parsed with
  | .error e => .error e
  | .ok (argPort, argProto) =>
    match walkPortGo found.length containerName argPort argProto found "" with
    | .error e => .error e
    | .ok (n, port) =>
      if n == 0 then .error (.noSuchContainer containerName) else .ok port

/-! Exec engine (part_002): `generateExecProcessSpec` and
`setExecCapabilities`. -/

/-- The four OCI capability sets of `specs.LinuxCapabilities` (the
`Ambient` set is untouched by this code and omitted). -/
structure LinuxCapabilities where
  bounding : List String
  permitted : List String
  inheritable : List String
  effective : List String
  deriving Repr, DecidableEq

/-- The fields of `specs.Process` that the exec engine reads or writes:
argument vector, environment list and the nilable capability struct. -/
structure ProcessSpec where
  args : List String
  env : List String
  capabilities : Option LinuxCapabilities
  deriving Repr, DecidableEq

/-- Model of nerdctl `strutil.DedupeStrSlice`: keep the first occurrence of
each exact string, preserving order. -/
def dedupeStrSlice (l : List String) : List String :=
  l.foldl (fun acc s => if s ∈ acc then acc else acc ++ [s]) []

/-- The caller-supplied request type (`container.ExecContainerInput` from the
external cluster-api test framework): an optional input stream flag and the
environment variables.  The type carries no privileged field. -/
structure ExecContainerInput where
  hasInputBuffer : Bool
  environmentVars : List String
  deriving Repr, DecidableEq

/-- Embedding of `setExecCapabilities` (part_002 lines 217-234): allocate the
capability struct when nil, then write the full current-process capability
set (`cap.Current()`, an external probe passed in as `allCaps`) into all four
sets: `Bounding` first, and the other three copied from `Bounding`. -/
def setExecCapabilities (allCaps : Except GoError (List String)) (pspec : ProcessSpec) :
    Except GoError ProcessSpec :=
  let pspec :=
    match pspec.capabilities with
    | none => { pspec with capabilities := some ⟨[], [], [], []⟩ }
    | some _ => pspec
  match allCaps with
  | .error e => .error e
  | .ok caps => .ok { pspec with capabilities := some ⟨caps, caps, caps, caps⟩ }

/-- Embedding of `generateExecProcessSpec` (part_002 lines 189-215): fetch the
container's original spec, replace the argument vector with the caller's
command and args, append the deduplicated caller environment entries after
the spec's existing environment, then — because the local variable
`privileged` is hardcoded to `true` — unconditionally install the full
current-process capability set. -/
def generateExecProcessSpec (allCaps : Except GoError (List String))
    (containerSpec : Except GoError ProcessSpec) (config : ExecContainerInput)
    (args : List String) : Except GoError ProcessSpec :=
  match containerSpec with
  | .error e => .error e
  | .ok spec =>
    let pspec := { spec with args := args }
    let env := config.environmentVars
    let pspec := { pspec with env := pspec.env ++ dedupeStrSlice env }
    let privileged := true
    if privileged then setExecCapabilities allCaps pspec
    else .ok pspec

/-! Image pull manager (src/container/containerd.go lines 74-97). -/

/-- The engine-side image store and client behaviour consumed by
`PullContainerImageIfNotExists`: the list of image names in the index,
whether `ListImages` fails, whether `Pull` of a given raw reference fails,
and the name under which a successful `Pull(image)` indexes the image (a
property of the external containerd client). -/
structure PullEngine where
  images : List String
  listFails : Bool
  pullFails : String → Bool
  pullName : String → String

/-- Embedding of `PullContainerImageIfNotExists`: parse the image reference
into its canonical form (`refdocker.ParseDockerRef`, external, passed in as
`parse`), list images filtered by exact name equality with the canonical
reference, return immediately when any match exists, and otherwise perform
one blocking pull of the raw `image` string.  The result carries the error
status, the engine state after the call, and the number of pulls this call
performed. -/
def PullContainerImageIfNotExists (parse : String → Except GoError String)
    (e : PullEngine) (image : String) : Except GoError Unit × PullEngine × Nat :=
  match parse image with
  | .error _ => (.error (.parseRefError image), e, 0)
  | .ok ref =>
    if e.listFails then (.error .listImagesError, e, 0)
    else if (e.images.filter (fun i => i == ref)).length > 0 then (.ok (), e, 0)
    else if e.pullFails image then (.error (.pullError image), e, 1)
    else (.ok (), { e with images := e.images ++ [e.pullName image] }, 1)

/-! Delete (part_000 lines 240-262).  The engine state is the set of
containers, each with an optional task in a containerd process status. -/

/-- Containerd task statuses (`containerd.ProcessStatus`). -/
inductive TaskStatus where
  | created
  | running
  | stopped
  | paused
  | pausing
  | unknown
  deriving Repr, DecidableEq

/-- String form of a task status, used in the delete error message. -/
def TaskStatus.text : TaskStatus → String
  | .created => "created"
  | .running => "running"
  | .stopped => "stopped"
  | .paused => "paused"
  | .pausing => "pausing"
  | .unknown => "unknown"

/-- Options passed to `container.Delete`. -/
inductive DeleteOpt where
  | withSnapshotCleanup
  deriving Repr, DecidableEq

/-- A container in the delete model: its exact ID and its task status
(`none` when `container.Task` reports that no task exists). -/
structure Cont where
  id : String
  task : Option TaskStatus
  deriving Repr, DecidableEq

/-- Engine-side state visible to the delete operation. -/
structure EngineSt where
  containers : List Cont
  deriving Repr, DecidableEq

/-- `client.LoadContainer`: exact-ID lookup, no prefix or name matching. -/
def loadContainer (s : EngineSt) (name : String) : Option Cont :=
  s.containers.find? (fun c => c.id == name)

/-- `container.Delete(ctx, deleteOpts...)`: the container is removed from the
engine; the options record the snapshot cleanup request. -/
def containerDelete (s : EngineSt) (name : String) (_opts : List DeleteOpt) : EngineSt :=
  { s with containers := s.containers.filter (fun c => !(c.id == name)) }

/-- `task.Delete`: the container's task is removed, the container stays. -/
def taskDelete (s : EngineSt) (name : String) : EngineSt :=
  { s with containers :=
      s.containers.map (fun c => if c.id == name then { c with task := none } else c) }

/-- The delete options built at the top of `DeleteContainer`:
`containerd.WithSnapshotCleanup` only. -/
def deleteOpts : List DeleteOpt := [.withSnapshotCleanup]

/-- Embedding of `DeleteContainer` (part_000 lines 240-262): load the
container by exact name; when no task exists, delete the container directly
(with snapshot cleanup); when the task status is `Stopped` or `Created`,
delete the task and then the container; for any other status fail with the
cannot-delete error.  An error outcome carries no new state: the engine is
untouched on every error path. -/
def DeleteContainer (s : EngineSt) (containerName : String) : Except GoError EngineSt :=
  match loadContainer s containerName with
  | none => .error (.loadContainerError containerName)
  | some c =>
    match c.task with
    | none => .ok (containerDelete s containerName deleteOpts)
    | some status =>
      if status == .stopped || status == .created then
        .ok (containerDelete (taskDelete s containerName) containerName deleteOpts)
      else .error (.cannotDeleteNonStopped status.text)

/-! Kill (part_000 lines 264-296). -/

/-- Model of `moby/sys/signal.ParseSignal`: a numeric argument other than `0`
is accepted as-is; otherwise the name is upper-cased, a leading `SIG` is
dropped and the result looked up in the signal table (modelled here by the
entries this driver can meet); anything else is the invalid-signal error. -/
def signalTable : List (String × Int) :=
  [("HUP", 1), ("INT", 2), ("QUIT", 3), ("KILL", 9), ("USR1", 10),
   ("USR2", 12), ("TERM", 15), ("STOP", 19)]

/-- Go `strings.ToUpper` (ASCII). -/
def goToUpper (s : String) : String := String.mk (s.toList.map Char.toUpper)

/-- Go `strings.TrimPrefix(s, "SIG")` on the character list. -/
def trimSigTag : List Char → List Char
  | 'S' :: 'I' :: 'G' :: rest => rest
  | cs => cs

/-- Model of `sysignal.ParseSignal` (external moby library). -/
def parseSignal (rawSignal : String) : Except GoError Int :=
  match atoi rawSignal with
  | some s => if s == 0 then .error (.invalidSignal rawSignal) else .ok s
  | none =>
    let key := String.mk (trimSigTag (goToUpper rawSignal).toList)
    match signalTable.find? (fun p => p.fst == key) with
    | some p => .ok p.snd
    | none => .error (.invalidSignal rawSignal)

/-- The constant `defaultSignal` of the source. -/
def defaultSignal : String := "SIGTERM"

/-- Options passed to `task.Kill`. -/
inductive KillOpt where
  | withKillAll
  deriving Repr, DecidableEq

/-- A container as seen by the kill path: its configured stop signal, when
one is configured (`containerd.GetStopSignal` returns it, or the supplied
default when none is configured). -/
structure KContainer where
  stopSignal : Option Int
  deriving Repr, DecidableEq

/-- Model of `containerd.GetStopSignal(ctx, container, sig)`. -/
def getStopSignal (c : KContainer) (dflt : Int) : Int :=
  c.stopSignal.getD dflt

/-- The engine interactions of `KillContainer`: the load result, the task
fetch result, and the engine's response to delivering a given signal. -/
structure KillEngine where
  load : Except GoError KContainer
  task : Except GoError Unit
  killResp : Int → Except GoError Unit

/-- Outcome trace of `KillContainer`: either the operation failed before any
signal delivery was attempted, or a delivery request was handed to
`task.Kill` with the resolved signal, the kill options, and the engine's
response to it. -/
inductive KillOutcome where
  | failedBeforeDelivery (e : GoError)
  | requested (sig : Int) (opts : List KillOpt) (resp : Except GoError Unit)
  deriving Repr

/-- Embedding of `KillContainer` (part_000 lines 265-296): parse the default
signal name, build the kill options with `WithKillAll`, load the container,
resolve the signal — an explicit non-empty argument is parsed (a parse
failure returns before delivery), an empty argument resolves to the
container's stop signal with the parsed default as fallback — fetch the task
and deliver the resolved signal with the options. -/
def KillContainer (e : KillEngine) (_containerName signal : String) : KillOutcome :=
  match parseSignal defaultSignal with
  | .error err => .failedBeforeDelivery err
  | .ok sigDefault =>
    let opts : List KillOpt := [.withKillAll]
    match e.load with
    | .error err => .failedBeforeDelivery err
    | .ok c =>
      let sigR : Except GoError Int :=
        if signal ≠ "" then parseSignal signal
        else .ok (getStopSignal c sigDefault)
      match sigR with
      | .error err => .failedBeforeDelivery err
      | .ok sig =>
        match e.task with
        | .error err => .failedBeforeDelivery err
        | .ok _ => .requested sig opts (e.killResp sig)

/-! IP-extraction rendering pipeline (part_000 lines 139-165 and 341-384)
and the inspector walks shared with debug-info. -/

/-- Outcome of running the parsed template over one inspected entry, covering
both rendering stages: `ok` is a clean typed render; `execError` is a typed
render failing with `template.ExecError` after writing `firstOut` into the
buffer, together with the outcome of the raw-JSON fallback render appended to
the same buffer; `otherError` is a typed render failing with an error of any
other class after writing `firstOut`.  Template execution itself is external
library code; this type records its behaviour per entry and format. -/
inductive RenderOutcome where
  | ok (out : String)
  | execError (firstOut : String) (raw : Except GoError String)
  | otherError (firstOut : String)

/-- The external template machinery consumed by `formatSlice`: whether
`parseTemplate` accepts the format, and how executing the parsed template
behaves on a given entry. -/
structure TemplateOracle (α : Type) where
  parse : String → Bool
  render : String → α → RenderOutcome

/-- Embedding of `formatSlice` (part_000 lines 341-361): parse the format;
iterate over the entries but return from inside the loop body, so only the
first entry is ever rendered; on a typed-render failure of the
`template.ExecError` class run the raw-JSON fallback into the same buffer and
propagate only the fallback's error; on a failure of any other class fall
through silently and return the partial buffer with a nil error; an empty
entry list returns the empty string. -/
def formatSlice {α : Type} (T : TemplateOracle α) (x : List α) (format : String) :
    Except GoError String :=
  if T.parse format then
    match x with
    | [] => .ok ""
    | f :: _ =>
      match T.render format f with
      | .ok out => .ok out
      | .execError firstOut raw =>
        match raw with
        | .ok r => .ok (firstOut ++ r)
        | .error e => .error e
      | .otherError firstOut => .ok firstOut
  else .error .templateParseError

/-- The `containerInspector.Handler` walk (part_000 lines 324-339) folded
over all matches: each match is inspected (external
`containerinspector.Inspect` plus `dockercompat` conversion, outcome supplied
per match) and appended to the entries; the walk aborts on the first
inspection error.  The handler performs no match-count check. -/
def inspectEntries {α : Type} : List (Except GoError α) → Except GoError (List α)
  | [] => .ok []
  | i :: rest =>
    match i with
    | .error e => .error e
    | .ok d =>
      match inspectEntries rest with
      | .error e => .error e
      | .ok ds => .ok (d :: ds)

/-- The fixed IPv4 template of `GetContainerIPs`. -/
def ipv4Format : String :=
  "\x7b\x7brange.NetworkSettings.Networks\x7d\x7d\x7b\x7b.IPAddress\x7d\x7d\x7b\x7bend\x7d\x7d"

/-- The fixed IPv6 template of `GetContainerIPs`. -/
def ipv6Format : String :=
  "\x7b\x7brange.NetworkSettings.Networks\x7d\x7d\x7b\x7b.GlobalIPv6Address\x7d\x7d\x7b\x7bend\x7d\x7d"

/-- Embedding of `GetContainerIPs` (part_000 lines 139-165): walk the matches
with the inspector handler (no ambiguity check), fail with the
no-such-object error when zero matches were visited, then render the
collected entries through the IPv4 template and the IPv6 template. -/
def GetContainerIPs {α : Type} (T : TemplateOracle α) (found : List (Except GoError α))
    (containerName : String) : Except GoError (String × String) :=
  match inspectEntries found with
  | .error e => .error e
  | .ok entries =>
    if found.length == 0 then .error (.noSuchObject containerName)
    else
      match formatSlice T entries ipv4Format with
      | .error e => .error e
      | .ok ip =>
        match formatSlice T entries ipv6Format with
        | .error e => .error e
        | .ok ipv6 => .ok (ip, ipv6)

/-- A container as seen by `ContainerDebugInfo`: its ID, its inspection
outcome, and the outcome of locating, opening and decoding its on-disk JSON
log file. -/
structure DebugContainer (α : Type) where
  id : String
  inspect : Except GoError α
  logStream : Except GoError Unit

/-- The second walker of `ContainerDebugInfo`: for each match, stream that
container's log file; abort on the first error, otherwise count the visited
matches.  No match-count check is performed. -/
def debugLogWalk {α : Type} : List (DebugContainer α) → Except GoError Nat
  | [] => .ok 0
  | c :: rest =>
    match c.logStream with
    | .error e => .error e
    | .ok _ =>
      match debugLogWalk rest with
      | .error e => .error e
      | .ok n => .ok (n + 1)

/-- Embedding of `ContainerDebugInfo` (part_000 lines 181-237): inspector
walk over the matches (no ambiguity check), no-such-object error for zero
matches, marshal the entries (external `json.MarshalIndent`, outcome passed
in), then a second walk streaming each match's log file, with the
no-such-container error for zero matches of the second walk. -/
def ContainerDebugInfo {α : Type} (marshal : List α → Except GoError String)
    (found : List (DebugContainer α)) (containerName : String) : Except GoError Unit :=
  match inspectEntries (found.map (fun c => c.inspect)) with
  | .error e => .error e
  | .ok entries =>
    if found.length == 0 then .error (.noSuchObject containerName)
    else
      match marshal entries with
      | .error e => .error e
      | .ok _ =>
        match debugLogWalk found with
        | .error e => .error e
        | .ok n =>
          if n == 0 then .error (.noSuchContainer containerName) else .ok ()

/-- The `ContainerWalker.Walk` loop specialised to `ExecContainer`'s
`OnFound` closure (part_002 lines 90-108): more than one match is the
ambiguous-ID error, otherwise the exec action runs for the found container. -/
def execWalkGo {β : Type} (matchCount : Nat) (req : String)
    (act : β → Except GoError Unit) : List β → Except GoError Nat
  | [] => .ok 0
  | c :: rest =>
    if matchCount > 1 then .error (.ambiguousID req)
    else
      match act c with
      | .error e => .error e
      | .ok _ =>
        match execWalkGo matchCount req act rest with
        | .error e => .error e
        | .ok n => .ok (n + 1)

/-- Embedding of the name-resolution shell of `ExecContainer` (part_002
lines 90-108): walk the matches with the ambiguity-checking closure, then
map zero visited matches to the no-such-container error. -/
def ExecContainerResolve {β : Type} (found : List β) (containerName : String)
    (act : β → Except GoError Unit) : Except GoError Unit :=
  match execWalkGo found.length containerName act found with
  | .error e => .error e
  | .ok n =>
    if n == 0 then .error (.noSuchContainer containerName) else .ok ()

/-! Namespace scoping (claim about every operation being scoped to the
handle's namespace).  A context carries the engine namespace its queries run
in; `namespaces.WithNamespace` replaces it.  Each definition below records,
straight from the corresponding function body, which context that operation
hands to the engine client. -/

/-- A Go `context.Context` restricted to the one datum this code puts into
it: the containerd namespace for engine queries. -/
structure Ctx where
  ns : String
  deriving Repr, DecidableEq

/-- Model of `namespaces.WithNamespace`. -/
def withNamespace (_ctx : Ctx) (n : String) : Ctx := ⟨n⟩

/-- `PullContainerImageIfNotExists` runs its engine queries under
`namespaces.WithNamespace(ctx, c.namespace)` (containerd.go line 75). -/
def pullQueryCtx (ctx : Ctx) (handleNs : String) : Ctx := withNamespace ctx handleNs

/-- `GetHostPort` hands the caller's context to the walker unchanged. -/
def getHostPortQueryCtx (ctx : Ctx) (_handleNs : String) : Ctx := ctx

/-- `GetContainerIPs` hands the caller's context to the walker unchanged. -/
def getContainerIPsQueryCtx (ctx : Ctx) (_handleNs : String) : Ctx := ctx

/-- `ExecContainer` hands the caller's context to the walker unchanged. -/
def execQueryCtx (ctx : Ctx) (_handleNs : String) : Ctx := ctx

/-- `KillContainer` hands the caller's context to `LoadContainer` unchanged. -/
def killQueryCtx (ctx : Ctx) (_handleNs : String) : Ctx := ctx

/-- `DeleteContainer` hands the caller's context to `LoadContainer` unchanged. -/
def deleteQueryCtx (ctx : Ctx) (_handleNs : String) : Ctx := ctx

/-- `ListContainers` (part_003) hands the caller's context to
`client.Containers` unchanged. -/
def listQueryCtx (ctx : Ctx) (_handleNs : String) : Ctx := ctx

/-- `ContainerDebugInfo` hands the caller's context to both walkers
unchanged. -/
def debugInfoQueryCtx (ctx : Ctx) (_handleNs : String) : Ctx := ctx

/-- The fixed data directory literal of `ContainerDebugInfo`
(part_000 line 203). -/
def debugDataStore : String := "/var/lib/nerdctl/1935db59"

/-- The namespace component `ns` hardcoded by `ContainerDebugInfo`
(part_000 line 204), independent of the handle's configured namespace. -/
def debugLogNs (_handleNs : String) : String := "default"

/-- Model of nerdctl `jsonfile.Path(dataStore, ns, id)`:
`dataStore/containers/ns/id/id-json.log`. -/
def jsonfilePath (dataStore ns id : String) : String :=
  dataStore ++ "/containers/" ++ ns ++ "/" ++ id ++ "/" ++ id ++ "-json.log"

/-- The log path `ContainerDebugInfo` probes for a container ID, for a handle
with the given configured namespace. -/
def debugLogPath (handleNs id : String) : String :=
  jsonfilePath debugDataStore (debugLogNs handleNs) id

/-- The variable name of an environment entry: everything before the first
`=`.  Used to count how many entries bind the same variable. -/
def envKey (e : String) : String := String.mk (e.toList.takeWhile (fun c => c != '='))

end Capcd

namespace Capcd

/-! Theorems settling the claims. -/

/-- C1: the claim asserts that an exec request with environment `["A=1"]`
against a container whose original spec environment is `["A=0","B=2"]`
produces a final process-spec environment with no duplicate `A` entries.
False: `generateExecProcessSpec` only deduplicates the caller's own list and
appends it after the existing environment, so the result is
`["A=0","B=2","A=1"]`, which contains two entries binding `A`. -/
theorem c1_counterexample_dup_env :
    generateExecProcessSpec (.ok ["CAP_SYS_ADMIN"])
        (.ok ⟨["init"], ["A=0", "B=2"], none⟩) ⟨false, ["A=1"]⟩ ["sh"]
      = .ok ⟨["sh"], ["A=0", "B=2", "A=1"],
          some ⟨["CAP_SYS_ADMIN"], ["CAP_SYS_ADMIN"], ["CAP_SYS_ADMIN"], ["CAP_SYS_ADMIN"]⟩⟩
    ∧ (["A=0", "B=2", "A=1"].filter (fun e => envKey e == "A")).length = 2 := by
  constructor
  · rfl
  · decide

/-- C1 (amended): the caller-provided environment variables are deduplicated
among themselves (exact string, first occurrence kept) and appended after the
spec's existing environment; entries already present in the spec are
retained, so the example yields `["A=0","B=2","A=1"]`, which contains `A=1`
and `B=2` but keeps the original `A=0` as a second `A` entry. -/
theorem c1_env_append (allCaps : List String) (spec : ProcessSpec)
    (config : ExecContainerInput) (args : List String) :
    generateExecProcessSpec (.ok allCaps) (.ok spec) config args
      = .ok ⟨args, spec.env ++ dedupeStrSlice config.environmentVars,
          some ⟨allCaps, allCaps, allCaps, allCaps⟩⟩
    ∧ ["A=0", "B=2"] ++ dedupeStrSlice ["A=1"] = ["A=0", "B=2", "A=1"] := by
  constructor
  · obtain ⟨a, e, c⟩ := spec
    cases c <;> rfl
  · decide

/-- C1 witness: the amended append behaviour at a concrete request. -/
theorem c1_env_append_witness :
    generateExecProcessSpec (.ok ["CAP_X"]) (.ok ⟨["i"], ["A=0"], none⟩)
        ⟨false, ["A=1"]⟩ ["sh"]
      = .ok ⟨["sh"], ["A=0"] ++ dedupeStrSlice ["A=1"],
          some ⟨["CAP_X"], ["CAP_X"], ["CAP_X"], ["CAP_X"]⟩⟩ :=
  (c1_env_append ["CAP_X"] ⟨["i"], ["A=0"], none⟩ ⟨false, ["A=1"]⟩ ["sh"]).1

/-- C2: the claim asserts the full current-process capability set is copied
into the four capability sets if and only if the request's privileged flag is
set, and that an unprivileged request leaves the sets unmodified.  False: the
request type has no privileged flag and the code hardcodes
`privileged := true`, so a request that carries no privilege indication still
has its capability sets overwritten — here the original sets hold only
`CAP_CHOWN` and the result holds the full probed set in all four places. -/
theorem c2_counterexample_caps_always_set :
    generateExecProcessSpec (.ok ["CAP_SYS_ADMIN", "CAP_NET_RAW"])
        (.ok ⟨["init"], [], some ⟨["CAP_CHOWN"], ["CAP_CHOWN"], [], []⟩⟩) ⟨false, []⟩ ["sh"]
      = .ok ⟨["sh"], [],
          some ⟨["CAP_SYS_ADMIN", "CAP_NET_RAW"], ["CAP_SYS_ADMIN", "CAP_NET_RAW"],
            ["CAP_SYS_ADMIN", "CAP_NET_RAW"], ["CAP_SYS_ADMIN", "CAP_NET_RAW"]⟩⟩
    ∧ (some (⟨["CAP_CHOWN"], ["CAP_CHOWN"], [], []⟩ : LinuxCapabilities)
        ≠ some (⟨["CAP_SYS_ADMIN", "CAP_NET_RAW"], ["CAP_SYS_ADMIN", "CAP_NET_RAW"],
            ["CAP_SYS_ADMIN", "CAP_NET_RAW"], ["CAP_SYS_ADMIN", "CAP_NET_RAW"]⟩ : LinuxCapabilities)) := by
  constructor
  · rfl
  · decide

/-- C2 (amended): for every exec request the full current-process capability
set is copied into all four capability sets of the synthesized process spec
unconditionally — the local `privileged` variable is hardcoded `true` and the
request carries no privileged flag, so no request leaves the capability sets
unmodified. -/
theorem c2_caps_unconditional (allCaps : List String) (spec : ProcessSpec)
    (config : ExecContainerInput) (args : List String) (r : ProcessSpec)
    (h : generateExecProcessSpec (.ok allCaps) (.ok spec) config args = .ok r) :
    r.capabilities = some ⟨allCaps, allCaps, allCaps, allCaps⟩ := by
  obtain ⟨a, e, c⟩ := spec
  cases c <;> simp [generateExecProcessSpec, setExecCapabilities] at h <;> simp [← h]

/-- C2 witness: the amended theorem applied to a concrete request. -/
theorem c2_caps_unconditional_witness :
    (⟨["sh"], [], some ⟨["CAP_KILL"], ["CAP_KILL"], ["CAP_KILL"], ["CAP_KILL"]⟩⟩ : ProcessSpec).capabilities
      = some ⟨["CAP_KILL"], ["CAP_KILL"], ["CAP_KILL"], ["CAP_KILL"]⟩ :=
  c2_caps_unconditional ["CAP_KILL"] ⟨["init"], [], none⟩ ⟨false, []⟩ ["sh"] _ rfl

/-- C4: `DeleteContainer` succeeds only when the task status is `Stopped` or
`Created` (deleting the task, then the container with snapshot cleanup),
proceeds directly to container deletion when no task exists, and for a task
in any other state returns the cannot-delete error — an error outcome
carries no new engine state, and the container remains loadable. -/
theorem c4_delete_guard (s : EngineSt) (name : String) (c : Cont)
    (hload : loadContainer s name = some c) :
    deleteOpts = [.withSnapshotCleanup]
    ∧ (c.task = none → DeleteContainer s name = .ok (containerDelete s name deleteOpts))
    ∧ (∀ st, c.task = some st → (st = .stopped ∨ st = .created) →
        DeleteContainer s name = .ok (containerDelete (taskDelete s name) name deleteOpts))
    ∧ (∀ st, c.task = some st → st ≠ .stopped → st ≠ .created →
        DeleteContainer s name = .error (.cannotDeleteNonStopped st.text)
        ∧ loadContainer s name = some c) := by
  refine ⟨rfl, ?_, ?_, ?_⟩
  · intro h
    simp [DeleteContainer, hload, h]
  · intro st hst hsc
    rcases hsc with h | h <;> subst h <;> simp [DeleteContainer, hload, hst]
  · intro st hst h1 h2
    refine ⟨?_, hload⟩
    have hb : (st == TaskStatus.stopped || st == TaskStatus.created) = false := by
      cases st <;> simp_all
    simp [DeleteContainer, hload, hst, hb]

/-- C4 witness: a container whose task is `Running` is rejected with the
cannot-delete error and remains loadable. -/
theorem c4_delete_guard_witness :
    DeleteContainer ⟨[⟨"n1", some .running⟩]⟩ "n1"
        = .error (.cannotDeleteNonStopped "running")
    ∧ loadContainer ⟨[⟨"n1", some .running⟩]⟩ "n1" = some ⟨"n1", some .running⟩ :=
  ((c4_delete_guard ⟨[⟨"n1", some .running⟩]⟩ "n1" ⟨"n1", some .running⟩ (by decide)).2.2.2
    .running rfl (by decide) (by decide))

/-- A non-empty exact-name filter is the same as membership; helper for the
image-index lookup of the pull manager. -/
theorem filter_beq_length_pos_iff_mem (l : List String) (r : String) :
    0 < (l.filter (fun i => i == r)).length ↔ r ∈ l := by
  induction l with
  | nil => simp
  | cons a rest ih =>
    by_cases h : a = r
    · subst h
      simp [List.filter]
    · simp [List.filter, h]
      rw [show (a == r) = false by simp [h]]
      simp [ih]
      intro hr
      exact absurd hr.symm h

/-- C5: `PullContainerImageIfNotExists` is idempotent.  When the image index
already holds an exact name match for the parsed canonical reference the call
returns success with zero pulls; when no match exists exactly one blocking
pull is performed; and provided the engine indexes the pulled image under the
canonical reference (the external client behaviour the code relies on), a
second call right after a successful pull performs zero pulls and leaves the
engine unchanged. -/
theorem c5_pull_idempotent (parse : String → Except GoError String)
    (e : PullEngine) (image ref : String)
    (hp : parse image = .ok ref) (hl : e.listFails = false) :
    (ref ∈ e.images → PullContainerImageIfNotExists parse e image = (.ok (), e, 0))
    ∧ (ref ∉ e.images → e.pullFails image = false →
        PullContainerImageIfNotExists parse e image
          = (.ok (), { e with images := e.images ++ [e.pullName image] }, 1))
    ∧ (ref ∉ e.images → e.pullFails image = false → e.pullName image = ref →
        PullContainerImageIfNotExists parse
            { e with images := e.images ++ [e.pullName image] } image
          = (.ok (), { e with images := e.images ++ [e.pullName image] }, 0)) := by
  refine ⟨?_, ?_, ?_⟩
  · intro hm
    have : 0 < (e.images.filter (fun i => i == ref)).length :=
      (filter_beq_length_pos_iff_mem e.images ref).2 hm
    simp [PullContainerImageIfNotExists, hp, hl, this]
  · intro hm hpf
    have : ¬ 0 < (e.images.filter (fun i => i == ref)).length := by
      rw [filter_beq_length_pos_iff_mem]
      exact hm
    simp [PullContainerImageIfNotExists, hp, hl, this, hpf]
  · intro hm hpf hname
    have hm2 : ref ∈ e.images ++ [e.pullName image] := by
      rw [hname]
      simp
    have hpos : (((e.images ++ [e.pullName image]).filter (fun i => i == ref)).length) > 0 :=
      (filter_beq_length_pos_iff_mem _ ref).2 hm2
    simp only [PullContainerImageIfNotExists, hp]
    rw [if_neg (by simp [hl]), if_pos hpos]

/-- C5 witness: pulling a missing image once and calling again — the first
call performs one pull, the second performs zero and leaves the engine as the
first call left it. -/
theorem c5_pull_idempotent_witness :
    PullContainerImageIfNotExists (fun _ => .ok "docker.io/library/img:latest")
        ⟨[], false, fun _ => false, fun _ => "docker.io/library/img:latest"⟩ "img:latest"
      = (.ok (), ⟨["docker.io/library/img:latest"], false,
          fun _ => false, fun _ => "docker.io/library/img:latest"⟩, 1)
    ∧ PullContainerImageIfNotExists (fun _ => .ok "docker.io/library/img:latest")
        ⟨["docker.io/library/img:latest"], false,
          fun _ => false, fun _ => "docker.io/library/img:latest"⟩ "img:latest"
      = (.ok (), ⟨["docker.io/library/img:latest"], false,
          fun _ => false, fun _ => "docker.io/library/img:latest"⟩, 0) := by
  constructor
  · exact (c5_pull_idempotent (fun _ => .ok "docker.io/library/img:latest")
      ⟨[], false, fun _ => false, fun _ => "docker.io/library/img:latest"⟩
      "img:latest" "docker.io/library/img:latest" rfl rfl).2.1 (by simp) rfl
  · exact (c5_pull_idempotent (fun _ => .ok "docker.io/library/img:latest")
      ⟨[], false, fun _ => false, fun _ => "docker.io/library/img:latest"⟩
      "img:latest" "docker.io/library/img:latest" rfl rfl).2.2 (by simp) rfl rfl

/-- C6: `GetHostPort` defaults the protocol to `tcp` when no slash-separated
protocol is given, rejects unparseable ports, non-positive ports, and inputs
split into more than two fields; a matching entry's host port is returned as
a decimal string — `"8080/tcp"` against `(8080, tcp, 30080)` gives
`"30080"`, `"8080/udp"` against the same mapping gives the
no-host-port-found error, the scan takes the first matching entry and the
protocol comparison is case-insensitive. -/
theorem c6_gethostport_spec :
    (∀ (s : String) (n : Int), goSplitSlash s = [s] → atoi s = some n → 0 < n →
        parsePortProto s = .ok (n, "tcp"))
    ∧ (∀ s : String, atoi ((goSplitSlash s).headD "") = none →
        parsePortProto s = .error (.atoiError ((goSplitSlash s).headD "")))
    ∧ (∀ (s : String) (n : Int), atoi ((goSplitSlash s).headD "") = some n → n ≤ 0 →
        parsePortProto s = .error (.unexpectedPort n))
    ∧ (∀ (s : String) (n : Int), atoi ((goSplitSlash s).headD "") = some n → 0 < n →
        3 ≤ (goSplitSlash s).length → parsePortProto s = .error (.failedToParse s))
    ∧ GetHostPort [⟨"lb", .decoded [⟨8080, "tcp", 30080⟩]⟩] "lb" "8080/tcp" = .ok "30080"
    ∧ GetHostPort [⟨"lb", .decoded [⟨8080, "tcp", 30080⟩]⟩] "lb" "8080/udp"
        = .error (.noHostPortFound "lb")
    ∧ GetHostPort [⟨"lb", .decoded [⟨8080, "TCP", 30080⟩, ⟨8080, "tcp", 40000⟩]⟩]
        "lb" "8080/tcp" = .ok "30080" := by
  refine ⟨?_, ?_, ?_, ?_, rfl, rfl, rfl⟩
  · intro s n hs ha hn
    simp only [parsePortProto, hs, List.headD, ha]
    rw [if_neg (by omega)]
    rfl
  · intro s h
    simp only [parsePortProto, h]
  · intro s n h hle
    simp only [parsePortProto, h]
    rw [if_pos hle]
  · intro s n h hn hlen
    simp only [parsePortProto, h]
    rw [if_neg (by omega)]
    obtain ⟨k, hk⟩ : ∃ k, (goSplitSlash s).length = k + 3 :=
      ⟨(goSplitSlash s).length - 3, by omega⟩
    rw [hk]
    rfl

/-- C6 witness: the parsing conjuncts applied at `"8080"` and `"0"`. -/
theorem c6_gethostport_spec_witness :
    parsePortProto "8080" = .ok (8080, "tcp")
    ∧ parsePortProto "0" = .error (.unexpectedPort 0) :=
  ⟨c6_gethostport_spec.1 "8080" 8080 rfl rfl (by decide),
   c6_gethostport_spec.2.2.1 "0" 0 rfl (by decide)⟩

/-- C7: `KillContainer` parses a non-empty signal argument and returns a
parse failure before any delivery is attempted; an empty argument resolves to
the container's configured stop signal with SIGTERM (15, from parsing the
`defaultSignal` constant) as fallback; and every delivery request carries
`WithKillAll`, targeting all processes in the container rather than just the
init process. -/
theorem c7_kill_signal_resolution (e : KillEngine) (name sig : String) (c : KContainer) :
    parseSignal defaultSignal = .ok 15
    ∧ (∀ err, e.load = .ok c → sig ≠ "" → parseSignal sig = .error err →
        KillContainer e name sig = .failedBeforeDelivery err)
    ∧ (e.load = .ok c → e.task = .ok () →
        KillContainer e name "" =
          .requested (getStopSignal c 15) [.withKillAll] (e.killResp (getStopSignal c 15)))
    ∧ (c.stopSignal = none → getStopSignal c 15 = 15)
    ∧ (∀ s opts resp, KillContainer e name sig = .requested s opts resp →
        opts = [.withKillAll]) := by
  have h15 : parseSignal defaultSignal = .ok 15 := rfl
  refine ⟨h15, ?_, ?_, ?_, ?_⟩
  · intro err hl hs hp
    simp only [KillContainer, h15, hl]
    rw [if_pos hs, hp]
  · intro hl ht
    simp only [KillContainer, h15, hl, ht]
    rw [if_neg (by simp)]
  · intro h
    simp [getStopSignal, h]
  · intro s opts resp h
    unfold KillContainer at h
    rw [h15] at h
    cases he : e.load with
    | error err => rw [he] at h; simp at h
    | ok c2 =>
      rw [he] at h
      simp only at h
      split at h
      · simp at h
      · cases ht : e.task with
        | error err2 => rw [ht] at h; simp at h
        | ok u =>
          rw [ht] at h
          simp only [KillOutcome.requested.injEq] at h
          exact h.2.1.symm

/-- C7 witness: an empty signal argument against a container with no
configured stop signal delivers SIGTERM (15) to all processes. -/
theorem c7_kill_signal_resolution_witness :
    KillContainer ⟨.ok ⟨none⟩, .ok (), fun _ => .ok ()⟩ "node" ""
      = .requested 15 [.withKillAll] (.ok ()) :=
  (c7_kill_signal_resolution ⟨.ok ⟨none⟩, .ok (), fun _ => .ok ()⟩ "node" "" ⟨none⟩).2.2.1
    rfl rfl

/-- C9: a uniquely resolving container whose port-mapping label is absent or
empty makes `GetHostPort` return the empty string with no error, while a
present label with no matching entry yields the no-host-port-found error
instead. -/
theorem c9_empty_label_ok (name pp : String) (argPort : Int) (argProto : String)
    (hparse : (if pp ≠ "" then parsePortProto pp else .ok (-1, "")) = .ok (argPort, argProto)) :
    (∀ c : ContainerInfo, c.portsLabel = .absent → GetHostPort [c] name pp = .ok "")
    ∧ (∀ (c : ContainerInfo) (ps : List PortMapping), c.portsLabel = .decoded ps →
        ps.find? (fun p => p.containerPort == toInt32 argPort &&
          goToLower p.protocol == argProto) = none →
        GetHostPort [c] name pp = .error (.noHostPortFound name)) := by
  constructor
  · intro c hc
    simp [GetHostPort, hparse, walkPortGo, printPort, hc]
  · intro c ps hc hfind
    simp [GetHostPort, hparse, walkPortGo, printPort, hc, hfind]

/-- C9 witness: a label-less container queried for `"8080/tcp"` succeeds with
the empty string. -/
theorem c9_empty_label_ok_witness :
    GetHostPort [⟨"lb", .absent⟩] "lb" "8080/tcp" = .ok "" :=
  (c9_empty_label_ok "lb" "8080/tcp" 8080 "tcp" rfl).1 ⟨"lb", .absent⟩ rfl

/-- A concrete template oracle whose renders always succeed; input for the
multi-match run of `GetContainerIPs`. -/
def sampleOracle : TemplateOracle Unit :=
  ⟨fun _ => true, fun _ _ => .ok "10.0.0.5"⟩

/-- C3: the claim asserts every resolution-dependent operation (including
GetContainerIPs) fails with an Ambiguous error for more than one live match
and performs no mutation.  False: `GetContainerIPs` performs no match-count
check — against two matches it inspects both and reports success, rendering
the first entry. -/
theorem c3_counterexample_ips_multi_match :
    2 ≤ ([Except.ok (), Except.ok ()] : List (Except GoError Unit)).length
    ∧ GetContainerIPs sampleOracle [.ok (), .ok ()] "node" = .ok ("10.0.0.5", "10.0.0.5") :=
  ⟨by decide, rfl⟩

/-- C3 (amended): `ExecContainer` and `GetHostPort` fail with the
ambiguous-ID error for more than one match and the no-such-container error
for zero matches, invoking no action; `GetContainerIPs` and
`ContainerDebugInfo` fail with the no-such-object error for zero matches but
perform no ambiguity check — with multiple matches they inspect every match
and succeed, rendering from the first entry; `KillContainer` and
`DeleteContainer` bypass name resolution entirely, loading by exact ID, so a
missing exact ID surfaces as the engine's load error and multiple
prefix-matches are never detected. -/
theorem c3_resolution_behaviour {α β : Type} (T : TemplateOracle α)
    (name pp : String) (argPort : Int) (argProto : String)
    (act : β → Except GoError Unit) (marshal : List α → Except GoError String) :
    (∀ found : List ContainerInfo, 2 ≤ found.length →
      (if pp ≠ "" then parsePortProto pp else .ok (-1, "")) = .ok (argPort, argProto) →
      GetHostPort found name pp = .error (.ambiguousID name))
    ∧ (∀ found : List β, 2 ≤ found.length →
      ExecContainerResolve found name act = .error (.ambiguousID name))
    ∧ ((if pp ≠ "" then parsePortProto pp else .ok (-1, "")) = .ok (argPort, argProto) →
      GetHostPort [] name pp = .error (.noSuchContainer name))
    ∧ ExecContainerResolve ([] : List β) name act = .error (.noSuchContainer name)
    ∧ GetContainerIPs T [] name = .error (.noSuchObject name)
    ∧ ContainerDebugInfo marshal ([] : List (DebugContainer α)) name
        = .error (.noSuchObject name)
    ∧ (∀ (a b : α) (s4 s6 : String), T.parse ipv4Format = true →
        T.parse ipv6Format = true → T.render ipv4Format a = .ok s4 →
        T.render ipv6Format a = .ok s6 →
        GetContainerIPs T [.ok a, .ok b] name = .ok (s4, s6))
    ∧ (∀ (a b : α) (i1 i2 out : String), marshal [a, b] = .ok out →
        ContainerDebugInfo marshal [⟨i1, .ok a, .ok ()⟩, ⟨i2, .ok b, .ok ()⟩] name = .ok ())
    ∧ (∀ s : EngineSt, loadContainer s name = none →
        DeleteContainer s name = .error (.loadContainerError name))
    ∧ (∀ (e : KillEngine) (sg : String) (err : GoError), e.load = .error err →
        KillContainer e name sg = .failedBeforeDelivery err) := by
  have h15 : parseSignal defaultSignal = .ok 15 := rfl
  refine ⟨?_, ?_, ?_, rfl, rfl, rfl, ?_, ?_, ?_, ?_⟩
  · intro found hlen hparse
    cases found with
    | nil => simp at hlen
    | cons c rest =>
      simp only [GetHostPort, hparse, walkPortGo]
      rw [if_pos (by simp at hlen ⊢; omega)]
  · intro found hlen
    cases found with
    | nil => simp at hlen
    | cons c rest =>
      simp only [ExecContainerResolve, execWalkGo]
      rw [if_pos (by simp at hlen ⊢; omega)]
  · intro hparse
    simp [GetHostPort, hparse, walkPortGo]
  · intro a b s4 s6 hp4 hp6 hr4 hr6
    simp [GetContainerIPs, inspectEntries, formatSlice, hp4, hp6, hr4, hr6]
  · intro a b i1 i2 out hm
    simp [ContainerDebugInfo, inspectEntries, debugLogWalk, hm]
  · intro s h
    simp [DeleteContainer, h]
  · intro e sg err h
    simp only [KillContainer, h15, h]

/-- C3 witness: the exec resolution shell applied to two matches rejects the
request as ambiguous without running the action. -/
theorem c3_resolution_behaviour_witness :
    ExecContainerResolve [(), ()] "node" (fun _ => .ok ()) = .error (.ambiguousID "node") :=
  (c3_resolution_behaviour (β := Unit) sampleOracle "node" "" (-1) ""
    (fun _ => .ok ()) (fun _ => .ok "")).2.1 [(), ()] (by decide)

/-- C8: the claim asserts every operation is scoped to the namespace stored
in the handle and that no operation uses a different or hardcoded namespace.
False: a handle configured with namespace `k8s.io` still hands the caller's
context unchanged to `LoadContainer` in Delete, and the debug-info log lookup
hardcodes the namespace `default` and a fixed data directory in the probed
path. -/
theorem c8_counterexample_hardcoded_ns :
    (deleteQueryCtx ⟨"caller"⟩ "k8s.io").ns ≠ "k8s.io"
    ∧ debugLogNs "k8s.io" ≠ "k8s.io"
    ∧ debugLogPath "k8s.io" "abc"
        = "/var/lib/nerdctl/1935db59/containers/default/abc/abc-json.log" :=
  ⟨by decide, by decide, rfl⟩

/-- C8 (amended): only `PullContainerImageIfNotExists` scopes its engine
queries to the handle's namespace via `WithNamespace`; every other operation
passes the caller's context to the engine unchanged, and the debug-info log
lookup uses the hardcoded namespace `default` and the fixed data directory
for every handle namespace. -/
theorem c8_namespace_scoping (ctx : Ctx) (handleNs id : String) :
    pullQueryCtx ctx handleNs = withNamespace ctx handleNs
    ∧ getHostPortQueryCtx ctx handleNs = ctx
    ∧ getContainerIPsQueryCtx ctx handleNs = ctx
    ∧ execQueryCtx ctx handleNs = ctx
    ∧ killQueryCtx ctx handleNs = ctx
    ∧ deleteQueryCtx ctx handleNs = ctx
    ∧ listQueryCtx ctx handleNs = ctx
    ∧ debugInfoQueryCtx ctx handleNs = ctx
    ∧ debugLogNs handleNs = "default"
    ∧ debugLogPath handleNs id = jsonfilePath debugDataStore "default" id :=
  ⟨rfl, rfl, rfl, rfl, rfl, rfl, rfl, rfl, rfl, rfl⟩

/-- C8 witness: the namespace-flow theorem at concrete namespaces. -/
theorem c8_namespace_scoping_witness :
    pullQueryCtx ⟨"caller"⟩ "k8s.io" = withNamespace ⟨"caller"⟩ "k8s.io"
    ∧ debugLogNs "k8s.io" = "default" :=
  ⟨(c8_namespace_scoping ⟨"caller"⟩ "k8s.io" "abc").1,
   (c8_namespace_scoping ⟨"caller"⟩ "k8s.io" "abc").2.2.2.2.2.2.2.2.1⟩

/-- C10: in `formatSlice`, a typed-render failure that is not of the
`template.ExecError` class is silently discarded — the partial buffer is
returned with a nil error; the raw-JSON fallback runs only for the
`ExecError` class (its error, and only its error, propagates, and its output
is appended to the partial buffer); only the first inspected entry is ever
rendered; and `GetContainerIPs` therefore reports success with partial
address strings when typed rendering fails with a non-`ExecError` error. -/
theorem c10_silent_error_discard {α : Type} (T : TemplateOracle α) (fmt : String)
    (f : α) (rest : List α) :
    (∀ p, T.parse fmt = true → T.render fmt f = .otherError p →
        formatSlice T (f :: rest) fmt = .ok p)
    ∧ (∀ p e, T.parse fmt = true → T.render fmt f = .execError p (.error e) →
        formatSlice T (f :: rest) fmt = .error e)
    ∧ (∀ p r, T.parse fmt = true → T.render fmt f = .execError p (.ok r) →
        formatSlice T (f :: rest) fmt = .ok (p ++ r))
    ∧ formatSlice T (f :: rest) fmt = formatSlice T [f] fmt
    ∧ (∀ (a : α) (p4 p6 name : String),
        T.parse ipv4Format = true → T.parse ipv6Format = true →
        T.render ipv4Format a = .otherError p4 → T.render ipv6Format a = .otherError p6 →
        GetContainerIPs T [.ok a] name = .ok (p4, p6)) := by
  refine ⟨?_, ?_, ?_, rfl, ?_⟩
  · intro p hp hr
    simp [formatSlice, hp, hr]
  · intro p e hp hr
    simp [formatSlice, hp, hr]
  · intro p r hp hr
    simp [formatSlice, hp, hr]
  · intro a p4 p6 name hp4 hp6 hr4 hr6
    simp [GetContainerIPs, inspectEntries, formatSlice, hp4, hp6, hr4, hr6]

/-- A concrete template oracle whose typed render always fails with a
non-`ExecError` error after writing a partial buffer. -/
def droppedErrOracle : TemplateOracle Unit :=
  ⟨fun _ => true, fun _ _ => .otherError "10.4."⟩

/-- C10 witness: the silently-discarded error conjunct at a concrete oracle —
the partial buffer comes back as success. -/
theorem c10_silent_error_discard_witness :
    formatSlice droppedErrOracle [()] ipv4Format = .ok "10.4." :=
  (c10_silent_error_discard droppedErrOracle ipv4Format () []).1 "10.4." rfl rfl

end Capcd
